import Mathlib

/-!
Verification development for the contacts-management REST service
(goit-pythonweb-hw-012).  The Python source is shallowly embedded:
database rows become Lean structures, the SQLAlchemy session becomes an
explicit `Db` value threaded through the operations, JWT encoding is a
symbolic record of payload/secret/algorithm, and fallible endpoints
return `Except PyErr`.  Each definition mirrors one Python function of
the repository; external collaborators (bcrypt via passlib, gravatar,
cloudinary upload, the config module and ORM model declarations that are
not part of the provided sources) are modelled from the specification
and marked as such in their doc comments.
-/

/-- Generic list helper: apply `f` to the first element satisfying `p`,
leaving the rest unchanged.  This models an ORM mutation of the row
returned by a `scalar_one_or_none` query followed by `commit`. -/
def updateFirst {α : Type} (p : α → Bool) (f : α → α) : List α → List α
  | [] => []
  | a :: rest => if p a then f a :: rest else a :: updateFirst p f rest

/-- Generic list helper: drop the first element satisfying `p`.  This
models `session.delete(row)` for the row returned by a query. -/
def removeFirst {α : Type} (p : α → Bool) : List α → List α
  | [] => []
  | a :: rest => if p a then rest else a :: removeFirst p rest

/-- Modelled from the spec: `src/schemas.py` and `src/database/models.py`
are not among the provided sources; per spec section 3 the role is
`USER | ADMIN` and defaults to `USER`. -/
inductive UserRole where
  | USER
  | ADMIN
deriving DecidableEq, Repr

/-- Python-level failure outcomes observed at the service boundary:
`HTTPException` carries a status code and detail message; `KeyError` and
`AttributeErr` stand for the homonymous uncaught Python exceptions
(`payload["sub"]` on a dict without the key, attribute access on `None`). -/
inductive PyErr where
  | HTTPException (statusCode : Nat) (detail : String)
  | KeyError (key : String)
  | AttributeErr (attr : String)
deriving DecidableEq, Repr

/-- Modelled from the spec: passlib/bcrypt is an external algorithm (spec
section 4.1, "salted adaptive hash").  A stored credential keeps the salt
and a digest; the digest function is modelled as an injective function of
the password for a fixed salt (here, the password itself), which captures
the collision-free contract that `verify` recomputes the digest under the
stored salt and compares. -/
structure HashedPassword where
  salt : Nat
  digest : String
deriving DecidableEq, Repr

/-- Embedding of `Hash.get_password_hash` (src/utils/hash_utility.py):
`pwd_context.hash` draws a fresh salt and digests the password; the salt
is made an explicit argument. -/
def Hash.get_password_hash (salt : Nat) (password : String) : HashedPassword :=
  { salt := salt, digest := password }

/-- Embedding of `Hash.verify_password` (src/utils/hash_utility.py):
`pwd_context.verify` re-hashes the plain password under the stored salt
and compares with the stored digest. -/
def Hash.verify_password (plain_password : String) (hashed_password : HashedPassword) : Bool :=
  (Hash.get_password_hash hashed_password.salt plain_password).digest == hashed_password.digest

/-- Identity record, mirroring the `User` ORM model as used by the
sources: id, username, email, password hash, email-confirmed flag,
optional avatar URL, role. -/
structure User where
  id : Nat
  username : String
  email : String
  hashed_password : HashedPassword
  confirmed : Bool
  avatar : Option String
  role : UserRole
deriving DecidableEq, Repr

/-- Contact record, mirroring the `Contact` ORM model as used by the
sources; `user_id` is the owning user's id. -/
structure Contact where
  id : Nat
  name : String
  surname : String
  email : String
  phone : String
  birthday : String
  extra_info : Option String
  user_id : Nat
deriving DecidableEq, Repr

/-- Registration input, mirroring the `UserCreate` schema fields used by
`register_user`. -/
structure UserCreate where
  username : String
  email : String
  password : String
deriving DecidableEq, Repr

/-- Contact input, mirroring the `ContactBase` schema fields used by the
contact endpoints. -/
structure ContactBase where
  name : String
  surname : String
  email : String
  phone : String
  birthday : String
  extra_info : Option String
deriving DecidableEq, Repr

/-- The persistent store: the users and contacts tables.  The SQLAlchemy
`AsyncSession` is modelled by passing a `Db` in and out of each
operation. -/
structure Db where
  users : List User
  contacts : List Contact
deriving DecidableEq, Repr

/-- Next autoincrement id for the users table. -/
def Db.nextUserId (db : Db) : Nat :=
  (db.users.map User.id).foldr (fun a b => max a b) 0 + 1

/-- Embedding of `UserRepository.get_user_by_id` (src/repository/users.py):
`select(User).filter_by(id=user_id)` with `scalar_one_or_none`. -/
def UserRepository.get_user_by_id (db : Db) (user_id : Nat) : Option User :=
  db.users.find? (fun u => u.id == user_id)

/-- Embedding of `UserRepository.get_user_by_username`
(src/repository/users.py). -/
def UserRepository.get_user_by_username (db : Db) (username : String) : Option User :=
  db.users.find? (fun u => u.username == username)

/-- Embedding of `UserRepository.get_user_by_email`
(src/repository/users.py). -/
def UserRepository.get_user_by_email (db : Db) (email : String) : Option User :=
  db.users.find? (fun u => u.email == email)

/-- Embedding of `UserRepository.create_user` (src/repository/users.py).
In the source the caller has already replaced `body.password` with the
bcrypt hash string; here the hashed credential is passed alongside the
body.  `confirmed` defaults to false and `role` to USER (modelled from
the spec, section 3, since the ORM model file is not among the provided
sources). -/
def UserRepository.create_user (db : Db) (body : UserCreate) (hashed : HashedPassword)
    (avatar : Option String) : User × Db :=
  let user : User :=
    { id := db.nextUserId, username := body.username, email := body.email,
      hashed_password := hashed, confirmed := false, avatar := avatar, role := UserRole.USER }
  (user, { db with users := db.users ++ [user] })

/-- Embedding of `UserRepository.confirmed_email` (src/repository/users.py):
fetch the row by email, set `confirmed = True`, commit.  Attribute access
on an absent row would raise `AttributeError` in Python. -/
def UserRepository.confirmed_email (db : Db) (email : String) : Except PyErr Db :=
  match UserRepository.get_user_by_email db email with
  | none => Except.error (PyErr.AttributeErr "confirmed")
  | some _ =>
      Except.ok { db with
        users := updateFirst (fun u => u.email == email)
          (fun u => { u with confirmed := true }) db.users }

/-- Embedding of `UserRepository.update_avatar_url` (src/repository/users.py):
fetch the row by email, set the avatar URL, commit, refresh, return the
row. -/
def UserRepository.update_avatar_url (db : Db) (email : String) (url : String) :
    Except PyErr (User × Db) :=
  match UserRepository.get_user_by_email db email with
  | none => Except.error (PyErr.AttributeErr "avatar")
  | some u =>
      Except.ok ({ u with avatar := some url },
        { db with
          users := updateFirst (fun x => x.email == email)
            (fun x => { x with avatar := some url }) db.users })

/-- Embedding of `UserService.get_user_by_username` (src/services/users.py),
a direct delegation to the repository; this is the identity-store lookup
the session resolver performs. -/
def UserService.get_user_by_username (db : Db) (username : String) : Option User :=
  UserRepository.get_user_by_username db username

/-- Embedding of `UserService.get_user_by_email` (src/services/users.py). -/
def UserService.get_user_by_email (db : Db) (email : String) : Option User :=
  UserRepository.get_user_by_email db email

/-- Embedding of `UserService.create_user` (src/services/users.py): the
gravatar lookup is an external collaborator whose best-effort result
(`None` on failure) is passed in as `gravatarResult`. -/
def UserService.create_user (db : Db) (body : UserCreate) (hashed : HashedPassword)
    (gravatarResult : Option String) : User × Db :=
  UserRepository.create_user db body hashed gravatarResult

/-- Embedding of `UserService.confirmed_email` (src/services/users.py), a
delegation to the repository. -/
def UserService.confirmed_email (db : Db) (email : String) : Except PyErr Db :=
  UserRepository.confirmed_email db email

/-- Embedding of `UserService.update_avatar_url` (src/services/users.py):
fetch by email, reject with 403 unless the role is ADMIN, then delegate
the persistent update to the repository.  The in-memory assignment
`user.avatar = url` before the repository call touches the same row the
repository then updates and is subsumed by it. -/
def UserService.update_avatar_url (db : Db) (email : String) (url : String) :
    Except PyErr (User × Db) :=
  match UserRepository.get_user_by_email db email with
  | none => Except.error (PyErr.AttributeErr "role")
  | some user =>
      if user.role ≠ UserRole.ADMIN then
        Except.error (PyErr.HTTPException 403 "Only admins can change their avatar")
      else
        UserRepository.update_avatar_url db email url

/-- The `sub` entry of a JWT payload dict: the key may be absent, present
with JSON null, or present with a string value.  Distinguishing absence
from null matters because `payload["sub"]` raises `KeyError` only when
the key is absent. -/
inductive SubClaim where
  | absent
  | null
  | strval (s : String)
deriving DecidableEq, Repr

/-- JWT claims set as the sources build it: optional `sub`, `exp`, `iat`
entries of the payload dict. -/
structure JwtPayload where
  sub : SubClaim
  exp : Option Int
  iat : Option Int
deriving DecidableEq, Repr

/-- A signed token, recorded symbolically as its payload together with
the secret and algorithm it was signed with. -/
structure Jwt where
  payload : JwtPayload
  secret : String
  alg : String
deriving DecidableEq, Repr

/-- Embedding of `jose.jwt.encode`: signing records the payload, secret
and algorithm. -/
def jwt.encode (payload : JwtPayload) (secret : String) (alg : String) : Jwt :=
  { payload := payload, secret := secret, alg := alg }

/-- Embedding of `jose.jwt.decode` at time `now`: validation succeeds
when the secret matches, the algorithm is among the accepted ones and
`exp` (when present) has not passed; any failure raises `JWTError`
(expiry is its `ExpiredSignatureError` subtype), modelled as `error ()`. -/
def jwt.decode (t : Jwt) (secret : String) (algorithms : List String) (now : Int) :
    Except Unit JwtPayload :=
  if t.secret == secret && algorithms.contains t.alg then
    match t.payload.exp with
    | some e => if e < now then Except.error () else Except.ok t.payload
    | none => Except.ok t.payload
  else
    Except.error ()

/-- Modelled from the spec: `src/conf/config.py` is not among the
provided sources; per spec sections 4.2 and 3 the token service uses a
process-wide secret, an HMAC-class algorithm and a configurable default
lifetime (e.g. 3600s).  Concrete values are arbitrary. -/
structure Config where
  JWT_SECRET : String
  JWT_ALGORITHM : String
  JWT_EXPIRATION_SECONDS : Int
deriving DecidableEq, Repr

/-- The process-wide configuration instance. -/
def config : Config :=
  { JWT_SECRET := "process-secret", JWT_ALGORITHM := "HS256", JWT_EXPIRATION_SECONDS := 3600 }

/-- Python truthiness of an optional integer, as tested by
`if expires_delta:` — false for `None` and for `0`. -/
def pyTruthy : Option Int → Bool
  | none => false
  | some d => d != 0

/-- Embedding of `create_access_token` (src/services/auth.py): copy the
payload, choose the expiry from `expires_delta` when that is truthy and
from `config.JWT_EXPIRATION_SECONDS` otherwise, set `exp`, and sign. -/
def create_access_token (data : JwtPayload) (expires_delta : Option Int) (now : Int) : Jwt :=
  let expire : Int :=
    if pyTruthy expires_delta then now + expires_delta.getD 0
    else now + config.JWT_EXPIRATION_SECONDS
  jwt.encode { data with exp := some expire } config.JWT_SECRET config.JWT_ALGORITHM

/-- The 401 exception raised by the session resolver
(src/services/auth.py). -/
def credentials_exception : PyErr :=
  PyErr.HTTPException 401 "Could not validate credentials"

/-- Embedding of `get_current_user` (src/services/auth.py), instrumented:
the second component records whether the identity store
(`UserService.get_user_by_username`) was queried.  Decoding failures
(`JWTError`, including expiry) give the 401 `credentials_exception`; an
absent `sub` key makes `payload["sub"]` raise `KeyError`, which the
`except JWTError` clause does not catch; a null `sub` takes the
`if username is None` branch and raises the 401. -/
def get_current_userTrace (token : Jwt) (db : Db) (now : Int) : Except PyErr User × Bool :=
  match jwt.decode token config.JWT_SECRET [config.JWT_ALGORITHM] now with
  | Except.error _ => (Except.error credentials_exception, false)
  | Except.ok payload =>
      match payload.sub with
      | SubClaim.absent => (Except.error (PyErr.KeyError "sub"), false)
      | SubClaim.null => (Except.error credentials_exception, false)
      | SubClaim.strval username =>
          match UserService.get_user_by_username db username with
          | none => (Except.error credentials_exception, true)
          | some user => (Except.ok user, true)

/-- The result of `get_current_user` (src/services/auth.py): the first
component of the instrumented embedding. -/
def get_current_user (token : Jwt) (db : Db) (now : Int) : Except PyErr User :=
  (get_current_userTrace token db now).1

/-- Modelled from the spec: the session resolver as spec section 4.4
words it — verify the token, extract `sub`, try the identity cache
(`get` on hit returns immediately), fall back to the store on miss,
populate the cache.  Stated only for comparison with
`get_current_userTrace`; the second component records whether the store
was contacted. -/
def specResolve (cache : List (String × User)) (token : Jwt) (db : Db) (now : Int) :
    Except PyErr (User × List (String × User)) × Bool :=
  match jwt.decode token config.JWT_SECRET [config.JWT_ALGORITHM] now with
  | Except.error _ => (Except.error credentials_exception, false)
  | Except.ok payload =>
      match payload.sub with
      | SubClaim.strval username =>
          match List.lookup username cache with
          | some u => (Except.ok (u, cache), false)
          | none =>
              match UserService.get_user_by_username db username with
              | none => (Except.error credentials_exception, true)
              | some u => (Except.ok (u, (username, u) :: cache), true)
      | _ => (Except.error credentials_exception, false)

/-- Embedding of `create_email_token` (src/services/auth.py): copy the
payload, set `iat = now` and `exp = now + 7 days`, sign. -/
def create_email_token (data : JwtPayload) (now : Int) : Jwt :=
  jwt.encode { data with iat := some now, exp := some (now + 7 * 24 * 3600) }
    config.JWT_SECRET config.JWT_ALGORITHM

/-- Embedding of `get_email_from_token` (src/services/auth.py): decode,
then return `payload["sub"]`.  A `JWTError` becomes the 422 exception; an
absent `sub` key raises `KeyError` (not caught by `except JWTError`); a
null `sub` is returned as Python `None`, hence the `Option String`
result. -/
def get_email_from_token (token : Jwt) (now : Int) : Except PyErr (Option String) :=
  match jwt.decode token config.JWT_SECRET [config.JWT_ALGORITHM] now with
  | Except.error _ =>
      Except.error (PyErr.HTTPException 422 "Неправильний токен для перевірки електронної пошти")
  | Except.ok payload =>
      match payload.sub with
      | SubClaim.absent => Except.error (PyErr.KeyError "sub")
      | SubClaim.null => Except.ok none
      | SubClaim.strval email => Except.ok (some email)

/-- Embedding of `register_user` (src/api/auth.py, POST /auth/register):
reject 409 if the email already resolves, then 409 if the username
already resolves, hash the password, create the user (gravatar result
passed through), schedule the confirmation email (fire-and-forget, no
effect on the response), return the created user and the new store
state. -/
def register_user (db : Db) (user_data : UserCreate) (salt : Nat)
    (gravatarResult : Option String) : Except PyErr (User × Db) :=
  match UserService.get_user_by_email db user_data.email with
  | some _ =>
      Except.error (PyErr.HTTPException 409 "Користувач з таким email вже існує")
  | none =>
      match UserService.get_user_by_username db user_data.username with
      | some _ =>
          Except.error (PyErr.HTTPException 409 "Користувач з таким іменем вже існує")
      | none =>
          let hashed := Hash.get_password_hash salt user_data.password
          Except.ok (UserService.create_user db user_data hashed gravatarResult)

/-- Successful login response body: the access token and the literal
token type `bearer`. -/
structure TokenResponse where
  access_token : Jwt
  token_type : String
deriving DecidableEq, Repr

/-- Embedding of `login_user` (src/api/auth.py, POST /auth/login): one
combined 401 for an absent username or a failing password check (a
single `if not user or not verify` with one message), a distinct 401
when the email is unconfirmed, otherwise an access token with
`sub = username`. -/
def login_user (db : Db) (form_username : String) (form_password : String) (now : Int) :
    Except PyErr TokenResponse :=
  match UserService.get_user_by_username db form_username with
  | none => Except.error (PyErr.HTTPException 401 "Неправильний логін або пароль")
  | some user =>
      if ¬ Hash.verify_password form_password user.hashed_password then
        Except.error (PyErr.HTTPException 401 "Неправильний логін або пароль")
      else if ¬ user.confirmed then
        Except.error (PyErr.HTTPException 401 "Електронна адреса не підтверджена")
      else
        Except.ok
          { access_token :=
              create_access_token
                { sub := SubClaim.strval user.username, exp := none, iat := none } none now,
            token_type := "bearer" }

/-- Embedding of `confirmed_email` (src/api/auth.py,
GET /auth/confirmed_email/token): extract the email from the token, look
the user up by it (a Python `None` subject matches no row), answer 400 if
absent, report already-confirmed without mutation, otherwise persist
`confirmed = true`. -/
def confirmed_email_route (token : Jwt) (db : Db) (now : Int) :
    Except PyErr (String × Db) :=
  match get_email_from_token token now with
  | Except.error e => Except.error e
  | Except.ok none =>
      Except.error (PyErr.HTTPException 400 "Verification error")
  | Except.ok (some email) =>
      match UserService.get_user_by_email db email with
      | none => Except.error (PyErr.HTTPException 400 "Verification error")
      | some user =>
          if user.confirmed then
            Except.ok ("Ваша електронна пошта вже підтверджена", db)
          else
            match UserService.confirmed_email db email with
            | Except.error e => Except.error e
            | Except.ok db2 => Except.ok ("Електронну пошту підтверджено", db2)

/-- Embedding of `update_avatar_user` (src/api/users.py,
PATCH /users/avatar): the cloudinary upload is an external collaborator
whose resulting URL is passed in as `avatar_url`; the endpoint then
delegates to `UserService.update_avatar_url` on the authenticated user's
email. -/
def update_avatar_user (avatar_url : String) (user : User) (db : Db) :
    Except PyErr (User × Db) :=
  UserService.update_avatar_url db user.email avatar_url

/-- Embedding of `ContactRepository.get_contact_by_id`
(src/repository/contacts.py): `select(Contact).filter_by(id=contact_id,
user=user)` with `scalar_one_or_none`; the relationship filter compares
the owning user, i.e. `user_id` against `user.id`. -/
def ContactRepository.get_contact_by_id (db : Db) (contact_id : Nat) (user : User) :
    Option Contact :=
  db.contacts.find? (fun c => c.id == contact_id && c.user_id == user.id)

/-- Embedding of `ContactRepository.update_contact`
(src/repository/contacts.py): fetch scoped to the user; when found,
overwrite the six fields from the body, commit, refresh, return the
contact; when absent return `None` and leave the store untouched. -/
def ContactRepository.update_contact (db : Db) (contact_id : Nat) (body : ContactBase)
    (user : User) : Option Contact × Db :=
  match ContactRepository.get_contact_by_id db contact_id user with
  | none => (none, db)
  | some c =>
      let upd : Contact → Contact := fun x =>
        { x with name := body.name, surname := body.surname, birthday := body.birthday,
                 email := body.email, phone := body.phone, extra_info := body.extra_info }
      (some (upd c),
        { db with
          contacts := updateFirst (fun x => x.id == contact_id && x.user_id == user.id)
            upd db.contacts })

/-- Embedding of `ContactRepository.remove_contact`
(src/repository/contacts.py): fetch scoped to the user; when found,
delete the row and return it; when absent return `None` and leave the
store untouched. -/
def ContactRepository.remove_contact (db : Db) (contact_id : Nat) (user : User) :
    Option Contact × Db :=
  match ContactRepository.get_contact_by_id db contact_id user with
  | none => (none, db)
  | some c =>
      (some c,
        { db with
          contacts := removeFirst (fun x => x.id == contact_id && x.user_id == user.id)
            db.contacts })

/-- Embedding of `ContactService.get_contact` (src/services/contacts.py),
a delegation to the repository. -/
def ContactService.get_contact (db : Db) (contact_id : Nat) (user : User) : Option Contact :=
  ContactRepository.get_contact_by_id db contact_id user

/-- Embedding of `ContactService.update_contact` (src/services/contacts.py). -/
def ContactService.update_contact (db : Db) (contact_id : Nat) (body : ContactBase)
    (user : User) : Option Contact × Db :=
  ContactRepository.update_contact db contact_id body user

/-- Embedding of `ContactService.remove_contact` (src/services/contacts.py). -/
def ContactService.remove_contact (db : Db) (contact_id : Nat) (user : User) :
    Option Contact × Db :=
  ContactRepository.remove_contact db contact_id user

/-- The 404 raised by the contact endpoints (src/api/contacts.py). -/
def contactNotFound : PyErr :=
  PyErr.HTTPException 404 "Contact not found"

/-- Embedding of `read_contact` (src/api/contacts.py,
GET /contacts/id): 404 when the user-scoped lookup misses; the store is
never modified.  The response is paired with the resulting store
state. -/
def contactsApi.read_contact (db : Db) (contact_id : Nat) (user : User) :
    Except PyErr Contact × Db :=
  match ContactService.get_contact db contact_id user with
  | none => (Except.error contactNotFound, db)
  | some c => (Except.ok c, db)

/-- Embedding of `update_contact` (src/api/contacts.py,
PUT /contacts/id): 404 when the user-scoped lookup misses. -/
def contactsApi.update_contact (db : Db) (contact_id : Nat) (body : ContactBase)
    (user : User) : Except PyErr Contact × Db :=
  match ContactService.update_contact db contact_id body user with
  | (none, db2) => (Except.error contactNotFound, db2)
  | (some c, db2) => (Except.ok c, db2)

/-- Embedding of `remove_contact` (src/api/contacts.py,
DELETE /contacts/id): 404 when the user-scoped lookup misses. -/
def contactsApi.remove_contact (db : Db) (contact_id : Nat) (user : User) :
    Except PyErr Contact × Db :=
  match ContactService.remove_contact db contact_id user with
  | (none, db2) => (Except.error contactNotFound, db2)
  | (some c, db2) => (Except.ok c, db2)

/-- Fixture: a confirmed administrator. -/
def aliceAdmin : User :=
  { id := 1, username := "alice", email := "alice@example.com",
    hashed_password := Hash.get_password_hash 5 "alicepw", confirmed := true,
    avatar := none, role := UserRole.ADMIN }

/-- Fixture: a confirmed regular user. -/
def bobUser : User :=
  { id := 2, username := "bob", email := "bob@example.com",
    hashed_password := Hash.get_password_hash 6 "bobpw", confirmed := true,
    avatar := none, role := UserRole.USER }

/-- Fixture: a regular user whose email is not yet confirmed. -/
def carolUser : User :=
  { id := 3, username := "carol", email := "carol@example.com",
    hashed_password := Hash.get_password_hash 7 "carolpw", confirmed := false,
    avatar := none, role := UserRole.USER }

/-- Fixture: a contact owned by `bobUser`. -/
def bobContact : Contact :=
  { id := 10, name := "Ann", surname := "Lee", email := "ann@example.com",
    phone := "111", birthday := "2000-01-01", extra_info := none, user_id := 2 }

/-- Fixture: a store holding the three users and Bob's contact. -/
def sampleDb : Db :=
  { users := [aliceAdmin, bobUser, carolUser], contacts := [bobContact] }

/-- Fixture: a valid access token for `bob`, unexpired at time 0. -/
def bobToken : Jwt :=
  jwt.encode { sub := SubClaim.strval "bob", exp := some 1000, iat := none }
    config.JWT_SECRET config.JWT_ALGORITHM

/-- Fixture: an identity-cache state holding a live entry for `bob`. -/
def bobCache : List (String × User) := [("bob", bobUser)]

/-- Fixture: a validly signed, unexpired token whose payload has no
`sub` entry. -/
def noSubToken : Jwt :=
  jwt.encode { sub := SubClaim.absent, exp := some 1000, iat := none }
    config.JWT_SECRET config.JWT_ALGORITHM

/-- Fixture: a contact-update body. -/
def annBody : ContactBase :=
  { name := "Ann", surname := "Moore", email := "ann2@example.com",
    phone := "222", birthday := "2000-01-01", extra_info := some "friend" }

theorem find?_append_of_none {α : Type} (p : α → Bool) (l1 l2 : List α)
    (h : l1.find? p = none) : (l1 ++ l2).find? p = l2.find? p := by
  induction l1 with
  | nil => rfl
  | cons a rest ih =>
      cases hpa : p a with
      | true =>
          rw [List.find?_cons_of_pos _ hpa] at h
          exact absurd h (by simp)
      | false =>
          rw [List.find?_cons_of_neg _ (by simp [hpa])] at h
          rw [List.cons_append, List.find?_cons_of_neg _ (by simp [hpa])]
          exact ih h

theorem find?_updateFirst {α : Type} (p : α → Bool) (f : α → α) (l : List α) (u : α)
    (hf : l.find? p = some u) (hp : p (f u) = true) :
    (updateFirst p f l).find? p = some (f u) := by
  induction l with
  | nil => simp [List.find?] at hf
  | cons a rest ih =>
      cases hpa : p a with
      | true =>
          rw [List.find?_cons_of_pos _ hpa] at hf
          injection hf with h1
          subst h1
          simp only [updateFirst, hpa, if_true]
          exact List.find?_cons_of_pos _ hp
      | false =>
          rw [List.find?_cons_of_neg _ (by simp [hpa])] at hf
          simp only [updateFirst, hpa, if_false, Bool.false_eq_true]
          rw [List.find?_cons_of_neg _ (by simp [hpa])]
          exact ih hf

theorem mem_updateFirst_of_not {α : Type} (p : α → Bool) (f : α → α) (l : List α) (c : α)
    (hc : c ∈ l) (hp : p c = false) : c ∈ updateFirst p f l := by
  induction l with
  | nil => simp at hc
  | cons a rest ih =>
      rcases List.mem_cons.mp hc with h | h
      · subst h
        simp only [updateFirst, hp, if_false, Bool.false_eq_true]
        exact List.mem_cons_self c _
      · cases hpa : p a with
        | true =>
            simp only [updateFirst, hpa, if_true]
            exact List.mem_cons_of_mem _ h
        | false =>
            simp only [updateFirst, hpa, if_false, Bool.false_eq_true]
            exact List.mem_cons_of_mem _ (ih h)

theorem mem_removeFirst_of_not {α : Type} (p : α → Bool) (l : List α) (c : α)
    (hc : c ∈ l) (hp : p c = false) : c ∈ removeFirst p l := by
  induction l with
  | nil => simp at hc
  | cons a rest ih =>
      cases hpa : p a with
      | true =>
          simp only [removeFirst, hpa, if_true]
          rcases List.mem_cons.mp hc with h | h
          · subst h
            rw [hp] at hpa
            exact absurd hpa (by simp)
          · exact h
      | false =>
          simp only [removeFirst, hpa, if_false, Bool.false_eq_true]
          rcases List.mem_cons.mp hc with h | h
          · subst h
            exact List.mem_cons_self c _
          · exact List.mem_cons_of_mem _ (ih h)

theorem countP_removeFirst {α : Type} (p : α → Bool) (l : List α) (u : α)
    (hf : l.find? p = some u) :
    (removeFirst p l).countP p + 1 = l.countP p := by
  induction l with
  | nil => simp [List.find?] at hf
  | cons a rest ih =>
      cases hpa : p a with
      | true =>
          simp only [removeFirst, hpa, if_true]
          rw [List.countP_cons_of_pos _ _ hpa]
      | false =>
          rw [List.find?_cons_of_neg _ (by simp [hpa])] at hf
          simp only [removeFirst, hpa, if_false, Bool.false_eq_true]
          rw [List.countP_cons_of_neg _ _ (by simp [hpa]),
            List.countP_cons_of_neg _ _ (by simp [hpa])]
          exact ih hf

/-- Claim C1, counterexample: at a concrete request whose token subject
`bob` has a live cache entry, the code's resolver (`get_current_user`)
still contacts the identity store (trace flag true), whereas the
spec-worded resolver with the same cache would not; and the code's
resolver succeeds, so the store contact is not a fallback. -/
theorem C1_cache_counterexample :
    (List.lookup "bob" bobCache).isSome = true
    ∧ get_current_user bobToken sampleDb 0 = Except.ok bobUser
    ∧ (get_current_userTrace bobToken sampleDb 0).2 = true
    ∧ (specResolve bobCache bobToken sampleDb 0).2 = false := by
  exact ⟨rfl, rfl, rfl, rfl⟩

/-- Claim C1, amended: the resolver in the code consults no cache at
all — it queries the identity store exactly when token decoding succeeds
and the payload's `sub` holds a string, regardless of any cache state,
and it populates no cache. -/
theorem C1_amended_always_store (token : Jwt) (db : Db) (now : Int) :
    (get_current_userTrace token db now).2 = true ↔
      ∃ payload,
        jwt.decode token config.JWT_SECRET [config.JWT_ALGORITHM] now = Except.ok payload
        ∧ ∃ username, payload.sub = SubClaim.strval username := by
  unfold get_current_userTrace
  cases hdec : jwt.decode token config.JWT_SECRET [config.JWT_ALGORITHM] now with
  | error e => simp [hdec]
  | ok payload =>
      cases hsub : payload.sub with
      | absent => simp [hsub]
      | null => simp [hsub]
      | strval username =>
          cases hu : UserService.get_user_by_username db username with
          | none => simp [hsub, hu]
          | some user => simp [hsub, hu]

/-- Claim C2: a validly signed, unexpired token whose payload lacks the
`sub` key decodes fine, but `payload["sub"]` raises `KeyError`, which the
`except JWTError` clause does not catch — the resolver does not produce
the 401 `credentials_exception` the claim (and the dead
`if username is None` branch) expects. -/
theorem C2_missing_sub_keyerror :
    jwt.decode noSubToken config.JWT_SECRET [config.JWT_ALGORITHM] 0
      = Except.ok { sub := SubClaim.absent, exp := some 1000, iat := none }
    ∧ get_current_user noSubToken sampleDb 0 = Except.error (PyErr.KeyError "sub")
    ∧ get_current_user noSubToken sampleDb 0 ≠ Except.error credentials_exception := by
  refine ⟨rfl, rfl, ?_⟩
  rw [show get_current_user noSubToken sampleDb 0 = Except.error (PyErr.KeyError "sub") from rfl]
  simp [credentials_exception]

/-- Claim C3, counterexample: `bob` is a regular (non-admin) user who
authenticates fine, yet PATCH /users/avatar rejects him with 403 instead
of the claimed 200. -/
theorem C3_avatar_counterexample :
    get_current_user bobToken sampleDb 0 = Except.ok bobUser
    ∧ bobUser.role ≠ UserRole.ADMIN
    ∧ update_avatar_user "http://cdn/x.png" bobUser sampleDb
        = Except.error (PyErr.HTTPException 403 "Only admins can change their avatar") := by
  exact ⟨rfl, by decide, rfl⟩

/-- Claim C3, amended: PATCH /users/avatar succeeds with the identity
updated to the new avatar URL only when the caller's role is ADMIN; for
every authenticated non-admin caller it fails with 403 Forbidden. -/
theorem C3_avatar_admin_gated (db : Db) (user : User) (url : String)
    (hfind : UserRepository.get_user_by_email db user.email = some user) :
    (user.role = UserRole.ADMIN →
      update_avatar_user url user db
        = Except.ok ({ user with avatar := some url },
            { db with
              users := updateFirst (fun x => x.email == user.email)
                (fun x => { x with avatar := some url }) db.users }))
    ∧ (user.role ≠ UserRole.ADMIN →
      update_avatar_user url user db
        = Except.error (PyErr.HTTPException 403 "Only admins can change their avatar")) := by
  constructor
  · intro hrole
    unfold update_avatar_user UserService.update_avatar_url UserRepository.update_avatar_url
    rw [hfind]
    simp [hrole]
  · intro hrole
    unfold update_avatar_user UserService.update_avatar_url
    rw [hfind]
    simp [hrole]

/-- Witness for C3's amended theorem at the admin fixture. -/
theorem C3_avatar_admin_gated_witness :
    update_avatar_user "http://cdn/a.png" aliceAdmin sampleDb
      = Except.ok ({ aliceAdmin with avatar := some "http://cdn/a.png" },
          { sampleDb with
            users := updateFirst (fun x => x.email == aliceAdmin.email)
              (fun x => { x with avatar := some "http://cdn/a.png" }) sampleDb.users }) :=
  (C3_avatar_admin_gated sampleDb aliceAdmin "http://cdn/a.png" rfl).1 rfl

/-- Claim C8: for any salt, verifying a password against its own hash
succeeds, and verifying any other password against that hash fails. -/
theorem C8_hash_verify (salt : Nat) (p q : String) (hne : q ≠ p) :
    Hash.verify_password p (Hash.get_password_hash salt p) = true
    ∧ Hash.verify_password q (Hash.get_password_hash salt p) = false := by
  constructor
  · simp [Hash.verify_password, Hash.get_password_hash]
  · simp [Hash.verify_password, Hash.get_password_hash, hne]

/-- Witness for C8 at concrete passwords. -/
theorem C8_hash_verify_witness :
    Hash.verify_password "12345678" (Hash.get_password_hash 3 "12345678") = true
    ∧ Hash.verify_password "87654321" (Hash.get_password_hash 3 "12345678") = false :=
  C8_hash_verify 3 "12345678" "87654321" (by decide)

/-- Claim C10: `create_access_token` treats `expires_delta = 0` (falsy in
Python) the same as an omitted delta — the expiry is the configured
default lifetime from now, not an already-expired instant. -/
theorem C10_zero_delta_default (data : JwtPayload) (now : Int) :
    create_access_token data (some 0) now = create_access_token data none now
    ∧ (create_access_token data (some 0) now).payload.exp
        = some (now + config.JWT_EXPIRATION_SECONDS) := by
  exact ⟨rfl, rfl⟩

/-- Claim C5: login for an unconfirmed user fails 401 even with correct
credentials; an absent username and a wrong password both fail 401 with
one identical message. -/
theorem C5_login_unconfirmed (db : Db) (u : User) (pw : String) (now : Int)
    (hu : UserService.get_user_by_username db u.username = some u)
    (hpw : Hash.verify_password pw u.hashed_password = true)
    (hconf : u.confirmed = false) :
    login_user db u.username pw now
      = Except.error (PyErr.HTTPException 401 "Електронна адреса не підтверджена")
    ∧ (∀ name pw2, UserService.get_user_by_username db name = none →
        login_user db name pw2 now
          = Except.error (PyErr.HTTPException 401 "Неправильний логін або пароль"))
    ∧ (∀ (v : User) (pw2 : String),
        UserService.get_user_by_username db v.username = some v →
        Hash.verify_password pw2 v.hashed_password = false →
        login_user db v.username pw2 now
          = Except.error (PyErr.HTTPException 401 "Неправильний логін або пароль")) := by
  refine ⟨?_, ?_, ?_⟩
  · unfold login_user
    rw [hu]
    simp [hpw, hconf]
  · intro name pw2 hnone
    unfold login_user
    rw [hnone]
  · intro v pw2 hv hbad
    unfold login_user
    rw [hv]
    simp [hbad]

/-- Witness for C5 at the unconfirmed fixture user `carol`. -/
theorem C5_login_unconfirmed_witness :
    login_user sampleDb carolUser.username "carolpw" 0
      = Except.error (PyErr.HTTPException 401 "Електронна адреса не підтверджена") :=
  (C5_login_unconfirmed sampleDb carolUser "carolpw" 0 rfl rfl rfl).1

/-- Claim C6: registration checks the email first, then the username,
and the first conflict found is the one reported; registering the same
email twice yields 409 on the second attempt regardless of the second
username. -/
theorem C6_register_conflicts (db : Db) (d1 d2 : UserCreate) (s1 s2 : Nat)
    (a1 a2 : Option String)
    (h1 : UserService.get_user_by_email db d1.email = none)
    (h2 : UserService.get_user_by_username db d1.username = none)
    (hsame : d2.email = d1.email) :
    (∀ (d : UserCreate) (s : Nat) (a : Option String),
        (UserService.get_user_by_email db d.email).isSome = true →
        register_user db d s a
          = Except.error (PyErr.HTTPException 409 "Користувач з таким email вже існує"))
    ∧ (∀ (d : UserCreate) (s : Nat) (a : Option String),
        UserService.get_user_by_email db d.email = none →
        (UserService.get_user_by_username db d.username).isSome = true →
        register_user db d s a
          = Except.error (PyErr.HTTPException 409 "Користувач з таким іменем вже існує"))
    ∧ ∃ (u : User) (db2 : Db),
        register_user db d1 s1 a1 = Except.ok (u, db2)
        ∧ register_user db2 d2 s2 a2
            = Except.error (PyErr.HTTPException 409 "Користувач з таким email вже існує") := by
  refine ⟨?_, ?_, ?_⟩
  · intro d s a hdup
    rcases Option.isSome_iff_exists.mp hdup with ⟨w, hw⟩
    unfold register_user
    rw [hw]
  · intro d s a hfree hdup
    rcases Option.isSome_iff_exists.mp hdup with ⟨w, hw⟩
    unfold register_user
    rw [hfree, hw]
  · refine ⟨(UserService.create_user db d1 (Hash.get_password_hash s1 d1.password) a1).1,
            (UserService.create_user db d1 (Hash.get_password_hash s1 d1.password) a1).2,
            ?_, ?_⟩
    · unfold register_user
      rw [h1, h2]
    · have h1' : db.users.find? (fun u => u.email == d1.email) = none := h1
      have hfound : UserService.get_user_by_email
          (UserService.create_user db d1 (Hash.get_password_hash s1 d1.password) a1).2 d2.email
          = some (UserService.create_user db d1 (Hash.get_password_hash s1 d1.password) a1).1 := by
        show (db.users
            ++ [(UserService.create_user db d1 (Hash.get_password_hash s1 d1.password) a1).1]).find?
              (fun u => u.email == d2.email)
          = some (UserService.create_user db d1 (Hash.get_password_hash s1 d1.password) a1).1
        rw [hsame, find?_append_of_none _ _ _ h1']
        simp [List.find?, UserService.create_user, UserRepository.create_user]
      unfold register_user
      rw [hfound]

/-- Witness for C6: registering `dp@x.com` twice over the fixture store
conflicts on the second attempt despite a different username. -/
theorem C6_register_conflicts_witness :
    ∃ (u : User) (db2 : Db),
      register_user sampleDb ⟨"dead", "dp@x.com", "12345678"⟩ 4 none = Except.ok (u, db2)
      ∧ register_user db2 ⟨"pool", "dp@x.com", "pw2"⟩ 9 none
          = Except.error (PyErr.HTTPException 409 "Користувач з таким email вже існує") :=
  (C6_register_conflicts sampleDb ⟨"dead", "dp@x.com", "12345678"⟩ ⟨"pool", "dp@x.com", "pw2"⟩
    4 9 none none rfl rfl rfl).2.2

/-- Claim C7: confirming twice with the same valid token — the first
call flips `confirmed` to true and persists it; the second call reports
the email as already confirmed and returns the store unchanged. -/
theorem C7_confirm_twice (db : Db) (u : User) (tnow now : Int)
    (hu : UserService.get_user_by_email db u.email = some u)
    (hconf : u.confirmed = false)
    (hexp : ¬ (tnow + 7 * 24 * 3600 < now)) :
    ∃ db2 : Db,
      confirmed_email_route
          (create_email_token { sub := SubClaim.strval u.email, exp := none, iat := none } tnow)
          db now
        = Except.ok ("Електронну пошту підтверджено", db2)
      ∧ UserService.get_user_by_email db2 u.email = some { u with confirmed := true }
      ∧ confirmed_email_route
          (create_email_token { sub := SubClaim.strval u.email, exp := none, iat := none } tnow)
          db2 now
        = Except.ok ("Ваша електронна пошта вже підтверджена", db2) := by
  have hcond : (config.JWT_SECRET == config.JWT_SECRET
      && List.contains [config.JWT_ALGORITHM] config.JWT_ALGORITHM) = true := by rfl
  have hexp' : ¬ (tnow + 604800 < now) := by omega
  have hget : get_email_from_token
      (create_email_token { sub := SubClaim.strval u.email, exp := none, iat := none } tnow) now
      = Except.ok (some u.email) := by
    unfold create_email_token get_email_from_token jwt.encode jwt.decode
    simp [hcond, hexp']
  have hu' : UserRepository.get_user_by_email db u.email = some u := hu
  have hufind : db.users.find? (fun x => x.email == u.email) = some u := hu
  have hfound2 : UserService.get_user_by_email
      { db with
        users := updateFirst (fun x => x.email == u.email)
          (fun x => { x with confirmed := true }) db.users } u.email
      = some { u with confirmed := true } := by
    show (updateFirst (fun x => x.email == u.email)
        (fun x => { x with confirmed := true }) db.users).find? (fun x => x.email == u.email)
      = some { u with confirmed := true }
    exact find?_updateFirst _ _ _ _ hufind (by simp)
  refine ⟨{ db with
      users := updateFirst (fun x => x.email == u.email)
        (fun x => { x with confirmed := true }) db.users }, ?_, hfound2, ?_⟩
  · simp [confirmed_email_route, hget, hu, hconf,
      UserService.confirmed_email, UserRepository.confirmed_email, hu']
  · simp [confirmed_email_route, hget, hfound2]

/-- Witness for C7 at the unconfirmed fixture user `carol`. -/
theorem C7_confirm_twice_witness :
    ∃ db2 : Db,
      confirmed_email_route
          (create_email_token
            { sub := SubClaim.strval carolUser.email, exp := none, iat := none } 0)
          sampleDb 0
        = Except.ok ("Електронну пошту підтверджено", db2)
      ∧ UserService.get_user_by_email db2 carolUser.email
          = some { carolUser with confirmed := true }
      ∧ confirmed_email_route
          (create_email_token
            { sub := SubClaim.strval carolUser.email, exp := none, iat := none } 0)
          db2 0
        = Except.ok ("Ваша електронна пошта вже підтверджена", db2) :=
  C7_confirm_twice sampleDb carolUser 0 0 rfl rfl (by decide)

/-- Claim C4: id-addressed contact operations are scoped to the caller —
a returned contact is always owned by the caller and has the requested
id; contacts not owned by the caller are never removed or modified; and
when every contact with the requested id belongs to someone else, all
three operations answer 404 and leave the store untouched. -/
theorem C4_contact_scoping (db : Db) (cid : Nat) (caller : User) (body : ContactBase) :
    (∀ c : Contact, (contactsApi.read_contact db cid caller).1 = Except.ok c →
        c.user_id = caller.id ∧ c.id = cid)
    ∧ (∀ c : Contact, (contactsApi.update_contact db cid body caller).1 = Except.ok c →
        c.user_id = caller.id ∧ c.id = cid)
    ∧ (∀ c : Contact, (contactsApi.remove_contact db cid caller).1 = Except.ok c →
        c.user_id = caller.id ∧ c.id = cid)
    ∧ (∀ c ∈ db.contacts, c.user_id ≠ caller.id →
        c ∈ (contactsApi.update_contact db cid body caller).2.contacts)
    ∧ (∀ c ∈ db.contacts, c.user_id ≠ caller.id →
        c ∈ (contactsApi.remove_contact db cid caller).2.contacts)
    ∧ ((∀ c ∈ db.contacts, c.id = cid → c.user_id ≠ caller.id) →
        contactsApi.read_contact db cid caller = (Except.error contactNotFound, db)
        ∧ contactsApi.update_contact db cid body caller = (Except.error contactNotFound, db)
        ∧ contactsApi.remove_contact db cid caller = (Except.error contactNotFound, db)) := by
  have key : ∀ c : Contact,
      db.contacts.find? (fun x => x.id == cid && x.user_id == caller.id) = some c →
      c.user_id = caller.id ∧ c.id = cid := by
    intro c h
    have hp := List.find?_some h
    simp only [Bool.and_eq_true, beq_iff_eq] at hp
    exact ⟨hp.2, hp.1⟩
  refine ⟨?_, ?_, ?_, ?_, ?_, ?_⟩
  · intro c hc
    unfold contactsApi.read_contact ContactService.get_contact at hc
    cases hf : ContactRepository.get_contact_by_id db cid caller with
    | none => rw [hf] at hc; simp at hc
    | some c0 =>
        rw [hf] at hc
        simp only at hc
        injection hc with h1
        subst h1
        exact key c0 hf
  · intro c hc
    unfold contactsApi.update_contact ContactService.update_contact
      ContactRepository.update_contact at hc
    cases hf : ContactRepository.get_contact_by_id db cid caller with
    | none => rw [hf] at hc; simp at hc
    | some c0 =>
        rw [hf] at hc
        simp only at hc
        injection hc with h1
        subst h1
        exact key c0 hf
  · intro c hc
    unfold contactsApi.remove_contact ContactService.remove_contact
      ContactRepository.remove_contact at hc
    cases hf : ContactRepository.get_contact_by_id db cid caller with
    | none => rw [hf] at hc; simp at hc
    | some c0 =>
        rw [hf] at hc
        simp only at hc
        injection hc with h1
        subst h1
        exact key c0 hf
  · intro c hcmem hcown
    have hp : (fun x : Contact => x.id == cid && x.user_id == caller.id) c = false := by
      simp [hcown]
    unfold contactsApi.update_contact ContactService.update_contact
      ContactRepository.update_contact
    cases hf : ContactRepository.get_contact_by_id db cid caller with
    | none => exact hcmem
    | some c0 =>
        show c ∈ updateFirst (fun x => x.id == cid && x.user_id == caller.id)
          (fun x : Contact =>
            { x with
              name := body.name
              surname := body.surname
              birthday := body.birthday
              email := body.email
              phone := body.phone
              extra_info := body.extra_info }) db.contacts
        exact mem_updateFirst_of_not _ _ _ _ hcmem hp
  · intro c hcmem hcown
    have hp : (fun x : Contact => x.id == cid && x.user_id == caller.id) c = false := by
      simp [hcown]
    unfold contactsApi.remove_contact ContactService.remove_contact
      ContactRepository.remove_contact
    cases hf : ContactRepository.get_contact_by_id db cid caller with
    | none => exact hcmem
    | some c0 =>
        show c ∈ removeFirst (fun x => x.id == cid && x.user_id == caller.id) db.contacts
        exact mem_removeFirst_of_not _ _ _ hcmem hp
  · intro hnone
    have hrep : ContactRepository.get_contact_by_id db cid caller = none := by
      show db.contacts.find? (fun x => x.id == cid && x.user_id == caller.id) = none
      apply List.find?_eq_none.mpr
      intro x hx hpx
      simp only [Bool.and_eq_true, beq_iff_eq] at hpx
      exact hnone x hx hpx.1 hpx.2
    refine ⟨?_, ?_, ?_⟩
    · unfold contactsApi.read_contact ContactService.get_contact
      rw [hrep]
    · unfold contactsApi.update_contact ContactService.update_contact
        ContactRepository.update_contact
      rw [hrep]
    · unfold contactsApi.remove_contact ContactService.remove_contact
        ContactRepository.remove_contact
      rw [hrep]

/-- Witness for C4: the admin caller does not own contact 10, so all
three operations answer 404 over the fixture store. -/
theorem C4_contact_scoping_witness :
    contactsApi.read_contact sampleDb 10 aliceAdmin = (Except.error contactNotFound, sampleDb)
    ∧ contactsApi.update_contact sampleDb 10 annBody aliceAdmin
        = (Except.error contactNotFound, sampleDb)
    ∧ contactsApi.remove_contact sampleDb 10 aliceAdmin
        = (Except.error contactNotFound, sampleDb) :=
  (C4_contact_scoping sampleDb 10 aliceAdmin annBody).2.2.2.2.2 (by decide)

/-- Claim C9: deleting the same contact id twice by its owner — the
first call removes and returns the contact, the second call answers 404
and leaves the store unchanged. -/
theorem C9_delete_twice (db : Db) (cid : Nat) (caller : User) (c : Contact)
    (hfind : ContactRepository.get_contact_by_id db cid caller = some c)
    (hone : db.contacts.countP (fun x => x.id == cid && x.user_id == caller.id) = 1) :
    ∃ db2 : Db,
      contactsApi.remove_contact db cid caller = (Except.ok c, db2)
      ∧ contactsApi.remove_contact db2 cid caller = (Except.error contactNotFound, db2) := by
  refine ⟨{ db with
      contacts := removeFirst (fun x => x.id == cid && x.user_id == caller.id) db.contacts },
    ?_, ?_⟩
  · unfold contactsApi.remove_contact ContactService.remove_contact
      ContactRepository.remove_contact
    rw [hfind]
  · have hfind' : db.contacts.find? (fun x => x.id == cid && x.user_id == caller.id)
        = some c := hfind
    have hcount := countP_removeFirst _ _ _ hfind'
    rw [hone] at hcount
    have hzero : (removeFirst (fun x => x.id == cid && x.user_id == caller.id)
        db.contacts).countP (fun x => x.id == cid && x.user_id == caller.id) = 0 := by
      omega
    have hnone2 : (removeFirst (fun x => x.id == cid && x.user_id == caller.id)
        db.contacts).find? (fun x => x.id == cid && x.user_id == caller.id) = none := by
      apply List.find?_eq_none.mpr
      intro x hx hpx
      exact absurd hpx (List.countP_eq_zero.mp hzero x hx)
    unfold contactsApi.remove_contact ContactService.remove_contact
      ContactRepository.remove_contact
    rw [show ContactRepository.get_contact_by_id
        { db with
          contacts := removeFirst (fun x => x.id == cid && x.user_id == caller.id) db.contacts }
        cid caller = none from hnone2]

/-- Witness for C9: `bob` deletes his contact 10 twice over the fixture
store. -/
theorem C9_delete_twice_witness :
    ∃ db2 : Db,
      contactsApi.remove_contact sampleDb 10 bobUser = (Except.ok bobContact, db2)
      ∧ contactsApi.remove_contact db2 10 bobUser = (Except.error contactNotFound, db2) :=
  C9_delete_twice sampleDb 10 bobUser bobContact rfl (by decide)
